import Mathlib

/-!
A shallow embedding of the core update pipeline and process-list
transformation engine of the `bottom` terminal resource monitor
(src/src/lib.rs and src/src/main.rs), with theorems settling the
specification claims about it.

Conventions:
* Rust `f64` metric fields are modelled as `ℚ`; the claims considered
  never depend on NaN behaviour.
* Rust's stable `Vec::sort_by` is modelled by `List.mergeSort`, which
  is stable, with the `Ordering`-valued comparator translated to the
  Boolean `le` relation `cmp a b ≠ Greater`.
* Code of the repository that lives outside the two source files under
  `src/` (the `app`, `data_conversion`, `utils::gen_util` and
  `data_harvester` modules) is either taken as an explicit function
  parameter or modelled from the spec; such definitions carry a
  `Modelled from the spec:` doc comment.
-/

namespace Bottom

/-- Modelled from the spec: `utils::gen_util::get_ordering` (the file
`utils/gen_util.rs` is not under `src/`). Every call site in
`sort_process_data` passes two values of a totally ordered type and a
`reverse` flag selecting the configured sort direction, and receives
the comparison result with `Greater`/`Less` swapped when `reverse` is
set ("then apply the configured column/direction on top"). -/
def get_ordering {β : Type} [LinearOrder β] (a_val b_val : β) (reverse_order : Bool) : Ordering :=
  match compare a_val b_val with
  | Ordering.gt => if reverse_order then Ordering.lt else Ordering.gt
  | Ordering.lt => if reverse_order then Ordering.gt else Ordering.lt
  | Ordering.eq => Ordering.eq

/-- Rust's stable `Vec::sort_by(cmp)` keeps `a` before `b` whenever
`cmp a b ≠ Greater`; this converts an `Ordering`-valued comparator into
the Boolean `le` relation expected by the stable `List.mergeSort`. -/
def cmp_le {α : Type} (cmp : α → α → Ordering) (a b : α) : Bool :=
  match cmp a b with
  | Ordering.gt => false
  | _ => true

/-- `Vec::sort_by` with comparator `cmp`: a stable sort placing `a`
before `b` whenever `cmp a b ≠ Greater`. -/
def sort_by {α : Type} (cmp : α → α → Ordering) (l : List α) : List α :=
  l.mergeSort (cmp_le cmp)

/-- `app::data_harvester::processes::ProcessSorting` as matched by
`sort_process_data` in src/src/lib.rs: the twelve sortable columns. -/
inductive ProcessSorting where
  | CpuPercent
  | Mem
  | MemPercent
  | ProcessName
  | Command
  | Pid
  | ReadPerSecond
  | WritePerSecond
  | TotalRead
  | TotalWrite
  | State
  | Count
deriving DecidableEq

/-- `ConvertedProcessData` (declared in the `data_conversion` module,
outside `src/`), with exactly the fields read by src/src/lib.rs:
identity and naming, the sortable metric columns, the grouped pid list
and the tree-mode `is_disabled_entry` flag. `f64` fields are `ℚ`. -/
structure ConvertedProcessData where
  pid : Int
  name : String
  command : String
  cpu_percent_usage : ℚ
  mem_usage_bytes : ℚ
  mem_percent_usage : ℚ
  rps_f64 : ℚ
  wps_f64 : ℚ
  tr_f64 : ℚ
  tw_f64 : ℚ
  process_state : String
  group_pids : List Int
  is_disabled_entry : Bool
deriving DecidableEq

/-- `app::ScrollDirection` (the `app` module is outside `src/`; the
`Down` variant is forced by src/src/lib.rs line 547 and the spec's
"reset scroll direction to down"). -/
inductive ScrollDirection where
  | Up
  | Down
deriving DecidableEq

/-- The scroll sub-state mutated by the clamp step of
`update_final_process_list` (src/src/lib.rs lines 541-548). -/
structure AppScrollWidgetState where
  current_scroll_position : Nat
  previous_scroll_position : Nat
  scroll_direction : ScrollDirection
deriving DecidableEq

/-- The slice of `app::ProcWidgetState` read by
`update_final_process_list` and `sort_process_data` in src/src/lib.rs.
`is_invalid_or_blank` caches the result of
`process_search_state.search_state.is_invalid_or_blank_search()` and
`process_filter` the result of `app.get_process_filter(widget_id)`
(both computed in the `app` module, outside `src/`); a filter is a
predicate on a row, additionally given the widget's `is_using_command`
flag, exactly the shape of `filter.check(&process, is_using_command)`. -/
structure ProcWidgetState where
  process_sorting_type : ProcessSorting
  is_process_sort_descending : Bool
  is_grouped : Bool
  is_tree_mode : Bool
  is_using_command : Bool
  is_invalid_or_blank : Bool
  process_filter : Option (ConvertedProcessData → Bool → Bool)
  scroll_state : AppScrollWidgetState

/-- Rust's `str::to_lowercase`, modelled as the per-character lowercase
map over the string's characters (structurally recursive so that it
can be evaluated on concrete inputs). -/
def to_lowercase (s : String) : String :=
  String.mk (s.data.map Char.toLower)

/-- The always-applied first pass of `sort_process_data`
(src/src/lib.rs lines 560-562): a stable case-insensitive ascending
sort on the process name. -/
def name_baseline (l : List ConvertedProcessData) : List ConvertedProcessData :=
  sort_by (fun a b => get_ordering (to_lowercase a.name) (to_lowercase b.name) false) l

/-- `sort_process_data` (src/src/lib.rs lines 557-677): the stable
name-ascending baseline followed by one stable sort for the configured
column and direction. The `ProcessName`-ascending arm skips the second
sort ("Don't repeat if false"), the `Pid` arm sorts only when the
widget is not grouped, and the `Count` arm only when it is grouped. -/
def sort_process_data (proc_widget_state : ProcWidgetState)
    (to_sort_vec : List ConvertedProcessData) : List ConvertedProcessData :=
  let base := name_baseline to_sort_vec
  match proc_widget_state.process_sorting_type with
  | ProcessSorting.CpuPercent =>
    sort_by (fun a b => get_ordering a.cpu_percent_usage b.cpu_percent_usage
      proc_widget_state.is_process_sort_descending) base
  | ProcessSorting.Mem =>
    sort_by (fun a b => get_ordering a.mem_usage_bytes b.mem_usage_bytes
      proc_widget_state.is_process_sort_descending) base
  | ProcessSorting.MemPercent =>
    sort_by (fun a b => get_ordering a.mem_percent_usage b.mem_percent_usage
      proc_widget_state.is_process_sort_descending) base
  | ProcessSorting.ProcessName =>
    if proc_widget_state.is_process_sort_descending then
      sort_by (fun a b => get_ordering (to_lowercase a.name) (to_lowercase b.name)
        proc_widget_state.is_process_sort_descending) base
    else base
  | ProcessSorting.Command =>
    sort_by (fun a b => get_ordering (to_lowercase a.command) (to_lowercase b.command)
      proc_widget_state.is_process_sort_descending) base
  | ProcessSorting.Pid =>
    if !proc_widget_state.is_grouped then
      sort_by (fun a b => get_ordering a.pid b.pid
        proc_widget_state.is_process_sort_descending) base
    else base
  | ProcessSorting.ReadPerSecond =>
    sort_by (fun a b => get_ordering a.rps_f64 b.rps_f64
      proc_widget_state.is_process_sort_descending) base
  | ProcessSorting.WritePerSecond =>
    sort_by (fun a b => get_ordering a.wps_f64 b.wps_f64
      proc_widget_state.is_process_sort_descending) base
  | ProcessSorting.TotalRead =>
    sort_by (fun a b => get_ordering a.tr_f64 b.tr_f64
      proc_widget_state.is_process_sort_descending) base
  | ProcessSorting.TotalWrite =>
    sort_by (fun a b => get_ordering a.tw_f64 b.tw_f64
      proc_widget_state.is_process_sort_descending) base
  | ProcessSorting.State =>
    sort_by (fun a b => get_ordering (to_lowercase a.process_state) (to_lowercase b.process_state)
      proc_widget_state.is_process_sort_descending) base
  | ProcessSorting.Count =>
    if proc_widget_state.is_grouped then
      sort_by (fun a b => get_ordering a.group_pids.length b.group_pids.length
        proc_widget_state.is_process_sort_descending) base
    else base

/-- The non-tree filter step of `update_final_process_list`
(src/src/lib.rs lines 503-519): a row is kept when the search is
invalid or blank, when no filter is installed, or when the filter's
`check` accepts it. -/
def filter_step_non_tree (is_invalid_or_blank : Bool)
    (process_filter : Option (ConvertedProcessData → Bool → Bool))
    (is_using_command : Bool)
    (single_process_data : List ConvertedProcessData) : List ConvertedProcessData :=
  single_process_data.filter fun process =>
    if !is_invalid_or_blank then
      match process_filter with
      | some f => f process is_using_command
      | none => true
    else true

/-- The tree-mode filter step of `update_final_process_list`
(src/src/lib.rs lines 488-502): every row is kept; when the search is
valid and a filter is installed, the row's `is_disabled_entry` flag is
set to the negation of the filter's `check`. -/
def filter_step_tree (is_invalid_or_blank : Bool)
    (process_filter : Option (ConvertedProcessData → Bool → Bool))
    (is_using_command : Bool)
    (single_process_data : List ConvertedProcessData) : List ConvertedProcessData :=
  single_process_data.map fun process =>
    if !is_invalid_or_blank then
      match process_filter with
      | some f => { process with is_disabled_entry := !(f process is_using_command) }
      | none => process
    else process

/-- The clamp step of `update_final_process_list` (src/src/lib.rs
lines 541-548): when the current scroll position is not below the new
list length, it becomes `len.saturating_sub(1)`, the previous position
becomes 0 and the scroll direction is reset to `Down`. -/
def clamp_scroll (scroll_state : AppScrollWidgetState) (len : Nat) : AppScrollWidgetState :=
  if len ≤ scroll_state.current_scroll_position then
    { current_scroll_position := len - 1
      previous_scroll_position := 0
      scroll_direction := ScrollDirection.Down }
  else scroll_state

/-- Association-list lookup, modelling `HashMap::get` on a map keyed by
widget id. -/
def assoc_lookup {β : Type} : List (Nat × β) → Nat → Option β
  | [], _ => none
  | (k', v) :: rest, k => if k' = k then some v else assoc_lookup rest k

/-- Association-list insert-or-replace, modelling `HashMap::insert`. -/
def assoc_insert {β : Type} : List (Nat × β) → Nat → β → List (Nat × β)
  | [], k, v => [(k, v)]
  | (k', v') :: rest, k, v =>
    if k' = k then (k, v) :: rest else (k', v') :: assoc_insert rest k v

/-- Modelled from the spec: the retained history ("History: per-metric
ordered time series"); its internals live in the `app::data_harvester`
layer outside `src/`, and every claim treats it opaquely, so it is an
abstract bag of samples. -/
structure DataCollection where
  samples : List Nat

/-- Modelled from the spec: one harvested snapshot bundle
(`data_harvester::Data`); its contents live outside `src/` and every
claim treats it opaquely. -/
structure Data where
  collection_time : Nat

/-- The slice of `app::App::canvas_data` touched by
`update_final_process_list` in src/src/lib.rs: the converted flat
process list and the per-widget finalized-list cache. -/
structure CanvasData where
  single_process_data : List ConvertedProcessData
  finalized_process_data_map : List (Nat × List ConvertedProcessData)

/-- The slice of `app::ProcState` read and written by
`handle_force_redraws`, `update_all_process_lists` and
`update_final_process_list` in src/src/lib.rs. -/
structure ProcState where
  force_update_all : Bool
  force_update : Option Nat
  widget_states : List (Nat × ProcWidgetState)

/-- The slice of `app::App` used by the process-list pipeline of
src/src/lib.rs. The cpu/mem/net force-update sub-states handled by the
later arms of `handle_force_redraws` (src/src/lib.rs lines 431-447)
touch disjoint canvas fields and are omitted. -/
structure LibApp where
  is_frozen : Bool
  data_collection : DataCollection
  proc_state : ProcState
  canvas_data : CanvasData

/-- `update_final_process_list` (src/src/lib.rs lines 468-555).
The externally defined helpers are passed explicitly: `convert` is
`data_conversion::convert_process_data`, `tree_fn` is
`data_conversion::tree_process_data` (receiving the filtered rows,
`is_using_command`, the sorting type and direction), and `group_fn` is
`data_conversion::group_process_data` (receiving the filtered rows and
`is_using_command`); all three live outside `src/`. When the widget id
is unknown the function does nothing; otherwise, when not frozen the
flat process list is refreshed from the data collection, then the rows
are filtered (tree or flat), shaped (tree, grouped, or pass-through),
sorted by `sort_process_data` unless in tree mode, the widget's scroll
state is clamped to the new length, and the result is cached in the
per-widget map. -/
def update_final_process_list
    (convert : DataCollection → List ConvertedProcessData)
    (tree_fn : List ConvertedProcessData → Bool → ProcessSorting → Bool → List ConvertedProcessData)
    (group_fn : List ConvertedProcessData → Bool → List ConvertedProcessData)
    (app : LibApp) (widget_id : Nat) : LibApp :=
  match assoc_lookup app.proc_state.widget_states widget_id with
  | none => app
  | some st =>
    let app1 :=
      if !app.is_frozen then
        { app with canvas_data.single_process_data := convert app.data_collection }
      else app
    let filtered_process_data :=
      if st.is_tree_mode then
        filter_step_tree st.is_invalid_or_blank st.process_filter st.is_using_command
          app1.canvas_data.single_process_data
      else
        filter_step_non_tree st.is_invalid_or_blank st.process_filter st.is_using_command
          app1.canvas_data.single_process_data
    let finalized_process_data :=
      if st.is_tree_mode then
        tree_fn filtered_process_data st.is_using_command st.process_sorting_type
          st.is_process_sort_descending
      else if st.is_grouped then
        group_fn filtered_process_data st.is_using_command
      else filtered_process_data
    let finalized_process_data2 :=
      if !st.is_tree_mode then sort_process_data st finalized_process_data
      else finalized_process_data
    let st' := { st with
      scroll_state := clamp_scroll st.scroll_state finalized_process_data2.length }
    { app1 with
      proc_state.widget_states :=
        assoc_insert app1.proc_state.widget_states widget_id st'
      canvas_data.finalized_process_data_map :=
        assoc_insert app1.canvas_data.finalized_process_data_map widget_id
          finalized_process_data2 }

/-- `update_all_process_lists` (src/src/lib.rs lines 451-466): when not
frozen, recompute every widget's finalized list in key order; when
frozen, do nothing. -/
def update_all_process_lists
    (convert : DataCollection → List ConvertedProcessData)
    (tree_fn : List ConvertedProcessData → Bool → ProcessSorting → Bool → List ConvertedProcessData)
    (group_fn : List ConvertedProcessData → Bool → List ConvertedProcessData)
    (app : LibApp) : LibApp :=
  if !app.is_frozen then
    let widget_ids := app.proc_state.widget_states.map (fun p => p.1)
    widget_ids.foldl (fun a widget_id =>
      update_final_process_list convert tree_fn group_fn a widget_id) app
  else app

/-- The process-widget portion of `handle_force_redraws`
(src/src/lib.rs lines 420-429): an all-widgets force update takes the
first branch and clears only its own flag; otherwise a pending
single-widget force update recomputes that widget and is consumed. The
remaining cpu/mem/net arms of the function act on disjoint state. -/
def handle_force_redraws
    (convert : DataCollection → List ConvertedProcessData)
    (tree_fn : List ConvertedProcessData → Bool → ProcessSorting → Bool → List ConvertedProcessData)
    (group_fn : List ConvertedProcessData → Bool → List ConvertedProcessData)
    (app : LibApp) : LibApp :=
  if app.proc_state.force_update_all then
    let app' := update_all_process_lists convert tree_fn group_fn app
    { app' with proc_state.force_update_all := false }
  else
    match app.proc_state.force_update with
    | some widget_id =>
      let app' := update_final_process_list convert tree_fn group_fn app widget_id
      { app' with proc_state.force_update := none }
    | none => app

/-- The slice of the `main.rs` application state relevant to the
`Event::Update` arm of the event loop: the freeze flag, the retained
history and the cached finalized row list (src/src/main.rs). The
remaining canvas fields (network, disk, temperature, memory, cpu)
refreshed by the same arm are skipped by the very same frozen guard. -/
structure MainApp where
  is_frozen : Bool
  data_collection : DataCollection
  finalized_process_data : List ConvertedProcessData

/-- The `Event::Update` arm of the main event loop (src/src/main.rs
lines 276-313). The whole body — `eat_data` into the history followed
by every canvas conversion and `update_final_process_list` — runs only
under `if !app.is_frozen`; those helpers live outside the arm and are
abstracted as the parameter `process_snapshot`. -/
def main_handle_update (process_snapshot : MainApp → Data → MainApp)
    (app : MainApp) (data : Data) : MainApp :=
  if !app.is_frozen then process_snapshot app data else app

/-- `crossterm::event::KeyModifiers` as used by src/src/lib.rs: a set
of the three modifier bits. `is_empty` is the empty set; the
`if let KeyModifiers::ALT = ...` patterns match exactly one bit set. -/
structure KeyModifiers where
  shift : Bool
  control : Bool
  alt : Bool
deriving DecidableEq

/-- The `crossterm::event::KeyCode` constructors matched by
`handle_key_event_or_break` in src/src/lib.rs, plus a `Null` default
covering every other code (all of which fall into the `_` arms). -/
inductive KeyCode where
  | Backspace
  | Enter
  | Left
  | Right
  | Up
  | Down
  | Home
  | End
  | Tab
  | Delete
  | F (n : Nat)
  | Char (c : Char)
  | Esc
  | Null
deriving DecidableEq

/-- A key event: code plus modifier set. -/
structure KeyEvent where
  code : KeyCode
  modifiers : KeyModifiers
deriving DecidableEq

/-- `app::layout_manager::WidgetDirection`. -/
inductive WidgetDirection where
  | Left
  | Right
  | Up
  | Down
deriving DecidableEq

/-- The `App` mutator invoked by one dispatch of
`handle_key_event_or_break` (src/src/lib.rs lines 89-176); the
mutators themselves live in the `app` module outside `src/`, so the
dispatch is embedded as the choice of mutator. `reset` covers the
CONTROL+r arm, which sends a `Reset` on the control channel and then
calls `app.reset()`. -/
inductive AppAction where
  | skip_to_last
  | skip_to_first
  | on_up_key
  | on_down_key
  | on_left_key
  | on_right_key
  | on_char_key (c : Char)
  | on_esc
  | on_enter
  | on_tab
  | on_backspace
  | on_delete
  | toggle_ignore_case
  | toggle_search_whole_word
  | toggle_search_regex
  | toggle_tree_mode
  | toggle_sort
  | on_slash
  | move_widget_selection (d : WidgetDirection)
  | reset
  | skip_cursor_beginning
  | skip_cursor_end
  | clear_search
  | no_action
deriving DecidableEq

/-- `handle_key_event_or_break` (src/src/lib.rs lines 89-176): returns
whether the program should break out of the event loop, paired with
the `App` mutator the dispatch invokes (`no_action` for unrecognized
combinations and for the two break paths, which return before any
mutation). -/
def handle_key_event_or_break (event : KeyEvent) (is_in_search_widget : Bool) :
    Bool × AppAction :=
  if event.modifiers = { shift := false, control := false, alt := false } then
    if event.code = KeyCode.Char 'q' ∧ ¬is_in_search_widget then
      (true, AppAction.no_action)
    else
      (false,
        match event.code with
        | KeyCode.End => AppAction.skip_to_last
        | KeyCode.Home => AppAction.skip_to_first
        | KeyCode.Up => AppAction.on_up_key
        | KeyCode.Down => AppAction.on_down_key
        | KeyCode.Left => AppAction.on_left_key
        | KeyCode.Right => AppAction.on_right_key
        | KeyCode.Char caught_char => AppAction.on_char_key caught_char
        | KeyCode.Esc => AppAction.on_esc
        | KeyCode.Enter => AppAction.on_enter
        | KeyCode.Tab => AppAction.on_tab
        | KeyCode.Backspace => AppAction.on_backspace
        | KeyCode.Delete => AppAction.on_delete
        | KeyCode.F 1 => AppAction.toggle_ignore_case
        | KeyCode.F 2 => AppAction.toggle_search_whole_word
        | KeyCode.F 3 => AppAction.toggle_search_regex
        | KeyCode.F 5 => AppAction.toggle_tree_mode
        | KeyCode.F 6 => AppAction.toggle_sort
        | _ => AppAction.no_action)
  else if event.modifiers = { shift := false, control := false, alt := true } then
    (false,
      match event.code with
      | KeyCode.Char 'c' => AppAction.toggle_ignore_case
      | KeyCode.Char 'C' => AppAction.toggle_ignore_case
      | KeyCode.Char 'w' => AppAction.toggle_search_whole_word
      | KeyCode.Char 'W' => AppAction.toggle_search_whole_word
      | KeyCode.Char 'r' => AppAction.toggle_search_regex
      | KeyCode.Char 'R' => AppAction.toggle_search_regex
      | KeyCode.Char 'h' => AppAction.on_left_key
      | KeyCode.Char 'l' => AppAction.on_right_key
      | _ => AppAction.no_action)
  else if event.modifiers = { shift := false, control := true, alt := false } then
    if event.code = KeyCode.Char 'c' then
      (true, AppAction.no_action)
    else
      (false,
        match event.code with
        | KeyCode.Char 'f' => AppAction.on_slash
        | KeyCode.Left => AppAction.move_widget_selection WidgetDirection.Left
        | KeyCode.Right => AppAction.move_widget_selection WidgetDirection.Right
        | KeyCode.Up => AppAction.move_widget_selection WidgetDirection.Up
        | KeyCode.Down => AppAction.move_widget_selection WidgetDirection.Down
        | KeyCode.Char 'r' => AppAction.reset
        | KeyCode.Char 'a' => AppAction.skip_cursor_beginning
        | KeyCode.Char 'e' => AppAction.skip_cursor_end
        | KeyCode.Char 'u' => AppAction.clear_search
        | _ => AppAction.no_action)
  else if event.modifiers = { shift := true, control := false, alt := false } then
    (false,
      match event.code with
      | KeyCode.Left => AppAction.move_widget_selection WidgetDirection.Left
      | KeyCode.Right => AppAction.move_widget_selection WidgetDirection.Right
      | KeyCode.Up => AppAction.move_widget_selection WidgetDirection.Up
      | KeyCode.Down => AppAction.move_widget_selection WidgetDirection.Down
      | KeyCode.Char caught_char => AppAction.on_char_key caught_char
      | _ => AppAction.no_action)
  else (false, AppAction.no_action)

/-- `crossterm::event::MouseButton`. -/
inductive MouseButton where
  | Left
  | Right
  | Middle
deriving DecidableEq

/-- The `crossterm::event::MouseEvent` constructors matched by
`handle_mouse_event` in src/src/lib.rs; `Up` and `Drag` land in the
catch-all arm. -/
inductive MouseEvent where
  | ScrollUp (x y : Nat) (m : KeyModifiers)
  | ScrollDown (x y : Nat) (m : KeyModifiers)
  | Down (button : MouseButton) (x y : Nat) (m : KeyModifiers)
  | Up (button : MouseButton) (x y : Nat) (m : KeyModifiers)
  | Drag (button : MouseButton) (x y : Nat) (m : KeyModifiers)
deriving DecidableEq

/-- Modelled from the spec: the slice of `App` state touched by mouse
handling — the click-disabling config flag (`app_config_fields.
disable_click`), the focused widget's scroll position ("scroll wheel
maps to scroll commands on the focused widget") and the focused/
selected widget ("left-click performs a hit-test against widget
geometry and moves focus/selection"). The mutators live in the `app`
module outside `src/`. -/
structure MouseApp where
  disable_click : Bool
  scroll_position : Nat
  selected_widget : Nat
deriving DecidableEq

/-- Modelled from the spec: `app.handle_scroll_up()` moves the focused
widget's selection up one row. -/
def handle_scroll_up (app : MouseApp) : MouseApp :=
  { app with scroll_position := app.scroll_position - 1 }

/-- Modelled from the spec: `app.handle_scroll_down()` moves the
focused widget's selection down one row. -/
def handle_scroll_down (app : MouseApp) : MouseApp :=
  { app with scroll_position := app.scroll_position + 1 }

/-- Modelled from the spec: `app.left_mouse_click_movement(x, y)`
performs a hit-test against widget geometry (here the abstract
`hit_test` parameter) and moves focus/selection. -/
def left_mouse_click_movement (hit_test : Nat → Nat → Nat) (x y : Nat)
    (app : MouseApp) : MouseApp :=
  { app with selected_widget := hit_test x y }

/-- `handle_mouse_event` (src/src/lib.rs lines 67-87): scroll events
dispatch unconditionally to the scroll handlers; only the button-down
arm is guarded by `!app.app_config_fields.disable_click`, inside which
a left button triggers the click movement and any other button does
nothing; every other mouse event kind does nothing. -/
def handle_mouse_event (hit_test : Nat → Nat → Nat) (event : MouseEvent)
    (app : MouseApp) : MouseApp :=
  match event with
  | MouseEvent.ScrollUp _ _ _ => handle_scroll_up app
  | MouseEvent.ScrollDown _ _ _ => handle_scroll_down app
  | MouseEvent.Down button x y _ =>
    if !app.disable_click then
      match button with
      | MouseButton.Left => left_mouse_click_movement hit_test x y app
      | MouseButton.Right => app
      | _ => app
    else app
  | _ => app

/-- The result of attempting to send on the event channel: `ok`, or
`closed` when the consumer end has been dropped (Rust `send` returning
`Err`). -/
inductive SendOutcome where
  | ok
  | closed
deriving DecidableEq

/-- How one loop iteration of a producer thread ends after its send. -/
inductive LoopExit where
  | continue_loop
  | exit_normally
  | panicked
deriving DecidableEq

/-- The send site of the harvest loop in `create_event_thread`
(src/src/lib.rs lines 743-745): `if sender.send(event).is_err() {
break; }` — a failed send breaks out of the loop; a successful one
falls through to the sleep and loops. -/
def create_event_thread_send_step : SendOutcome → LoopExit
  | SendOutcome.closed => LoopExit.exit_normally
  | SendOutcome.ok => LoopExit.continue_loop

/-- The send sites of the input thread in `create_input_thread`
(src/src/lib.rs lines 693-695 and 700-702): a failed send breaks out
of the loop. -/
def create_input_thread_send_step : SendOutcome → LoopExit
  | SendOutcome.closed => LoopExit.exit_normally
  | SendOutcome.ok => LoopExit.continue_loop

/-- The send sites of the `main.rs` input thread (src/src/main.rs
lines 159-161 and 166-168): a failed send returns from the closure. -/
def main_input_thread_send_step : SendOutcome → LoopExit
  | SendOutcome.closed => LoopExit.exit_normally
  | SendOutcome.ok => LoopExit.continue_loop

/-- The send site of the `main.rs` cleanup-tick thread
(src/src/main.rs line 184): `tx.send(Event::Clean).unwrap()` — a
failed send panics the thread via `unwrap`. -/
def main_cleaning_thread_send_step : SendOutcome → LoopExit
  | SendOutcome.closed => LoopExit.panicked
  | SendOutcome.ok => LoopExit.continue_loop

/-- The send site of the `main.rs` harvest thread (src/src/main.rs
lines 207-208): `tx.send(Event::Update(..)).unwrap()` — a failed send
panics the thread via `unwrap`. -/
def main_harvest_thread_send_step : SendOutcome → LoopExit
  | SendOutcome.closed => LoopExit.panicked
  | SendOutcome.ok => LoopExit.continue_loop

/-- The `ProcessSorting` enum matched by the `main.rs` version of
`sort_process_data` (src/src/main.rs lines 398-418): the four sortable
columns of the older implementation. -/
inductive MainProcessSorting where
  | CPU
  | MEM
  | NAME
  | PID
deriving DecidableEq

/-- The `main.rs` version of `ConvertedProcessData`, with exactly the
fields constructed at src/src/main.rs lines 381-387 and read by its
`sort_process_data`; `f64` fields are `ℚ`. -/
structure MainConvertedProcessData where
  pid : Int
  name : String
  cpu_usage : ℚ
  mem_usage : ℚ
  group_pids : List Int
deriving DecidableEq

/-- The slice of the `main.rs` `app::App` read by its
`sort_process_data` (src/src/main.rs lines 395-419): the sort column,
the direction flag `process_sorting_reverse`, and the grouping mode
returned by `app.is_grouped()`. -/
structure MainSortConfig where
  process_sorting_type : MainProcessSorting
  process_sorting_reverse : Bool
  is_grouped : Bool
deriving DecidableEq

/-- The first pass of the `main.rs` `sort_process_data`
(src/src/main.rs line 396): a stable ascending sort on the RAW process
name — `get_ordering(&a.name, &b.name, false)` with no lowercasing, so
it is case-sensitive, unlike the lib.rs baseline. -/
def main_name_baseline (l : List MainConvertedProcessData) : List MainConvertedProcessData :=
  sort_by (fun a b => get_ordering a.name b.name false) l

/-- The `main.rs` `sort_process_data` (src/src/main.rs lines 395-419):
the case-sensitive raw-name baseline followed by one stable sort for
the configured column and direction; the `NAME` arm re-sorts
unconditionally (case-sensitively) and the `PID` arm sorts only when
the widget is not grouped. -/
def main_sort_process_data (app : MainSortConfig)
    (to_sort_vec : List MainConvertedProcessData) : List MainConvertedProcessData :=
  let base := main_name_baseline to_sort_vec
  match app.process_sorting_type with
  | MainProcessSorting.CPU =>
    sort_by (fun a b => get_ordering a.cpu_usage b.cpu_usage
      app.process_sorting_reverse) base
  | MainProcessSorting.MEM =>
    sort_by (fun a b => get_ordering a.mem_usage b.mem_usage
      app.process_sorting_reverse) base
  | MainProcessSorting.NAME =>
    sort_by (fun a b => get_ordering a.name b.name
      app.process_sorting_reverse) base
  | MainProcessSorting.PID =>
    if !app.is_grouped then
      sort_by (fun a b => get_ordering a.pid b.pid
        app.process_sorting_reverse) base
    else base

/-- The comparison applied by the second pass of the `main.rs`
`sort_process_data` for the configured sort column and direction. -/
def main_configured_cmp (app : MainSortConfig)
    (a b : MainConvertedProcessData) : Ordering :=
  match app.process_sorting_type with
  | MainProcessSorting.CPU =>
    get_ordering a.cpu_usage b.cpu_usage app.process_sorting_reverse
  | MainProcessSorting.MEM =>
    get_ordering a.mem_usage b.mem_usage app.process_sorting_reverse
  | MainProcessSorting.NAME =>
    get_ordering a.name b.name app.process_sorting_reverse
  | MainProcessSorting.PID =>
    get_ordering a.pid b.pid app.process_sorting_reverse

/-- The harvested per-process record of the `data_harvester` module
(outside `src/`), with exactly the fields read by the `main.rs`
`update_final_process_list` at src/src/main.rs lines 370-387. -/
structure MainProcessHarvest where
  pid : Int
  name : String
  cpu_usage_percent : ℚ
  mem_usage_percent : ℚ
deriving DecidableEq

/-- The slice of the `main.rs` `app::App` read and written by its
`update_final_process_list` (src/src/main.rs lines 352-393), plus the
process-table scroll position. The scroll position itself lives in the
`app` module (outside `src/`) and is modelled from the spec; the point
recorded here is that this recompute never reads or writes it.
`regex_matcher` models `app.get_current_regex_matcher()`: `some` for
`Ok(matcher)` (with `is_match` as the function) and `none` for `Err`. -/
structure MainUpdateApp where
  is_grouped : Bool
  is_searching_with_pid : Bool
  regex_matcher : Option (String → Bool)
  process_sorting_type : MainProcessSorting
  process_sorting_reverse : Bool
  scroll_position : Nat
  grouped_process_data : List MainConvertedProcessData
  process_data : List (Int × MainProcessHarvest)
  finalized_process_data : List MainConvertedProcessData

/-- The sort configuration `sort_process_data(&mut ..., app)` reads
from the same `app::App`. -/
def to_sort_config (app : MainUpdateApp) : MainSortConfig :=
  { process_sorting_type := app.process_sorting_type
    process_sorting_reverse := app.process_sorting_reverse
    is_grouped := app.is_grouped }

/-- The `main.rs` `update_final_process_list` (src/src/main.rs lines
352-393): filter the grouped rows by name (grouped mode) or the raw
process map by pid-string or name (ungrouped mode, converting each
kept record), with a failed matcher (`Err`) passing everything; then
sort with the `main.rs` `sort_process_data` and store the result. No
scroll state is read or written anywhere in this function. -/
def main_update_final_process_list (app : MainUpdateApp) : MainUpdateApp :=
  let filtered_process_data :=
    if app.is_grouped then
      app.grouped_process_data.filter fun process =>
        match app.regex_matcher with
        | some matcher => matcher process.name
        | none => true
    else
      (app.process_data.filter fun p =>
        match app.regex_matcher with
        | some matcher =>
          if app.is_searching_with_pid then matcher (toString p.2.pid)
          else matcher p.2.name
        | none => true).map fun p =>
          { pid := p.2.pid
            name := p.2.name
            cpu_usage := p.2.cpu_usage_percent
            mem_usage := p.2.mem_usage_percent
            group_pids := [p.2.pid] }
  { app with
    finalized_process_data :=
      main_sort_process_data (to_sort_config app) filtered_process_data }

/-- Evaluation of the stable sort on a two-element list, used to run
the embedded definitions on concrete inputs. -/
theorem mergeSort_pair {α : Type} (le : α → α → Bool) (a b : α) :
    List.mergeSort [a, b] le = if le a b then [a, b] else [b, a] := by
  simp [List.mergeSort, List.splitInTwo, List.splitAt, List.splitAt.go, List.merge]

/-- The Boolean `le` induced by a key comparator agrees with `≤` on the
keys, in the configured direction. -/
theorem cmp_le_key_iff {α β : Type} [LinearOrder β] (k : α → β) (rev : Bool) (a b : α) :
    cmp_le (fun x y => get_ordering (k x) (k y) rev) a b = true ↔
      (if rev then k b ≤ k a else k a ≤ k b) := by
  rcases hc : compare (k a) (k b) with _ | _ | _ <;> cases rev <;>
    simp [cmp_le, get_ordering, hc]
  · exact le_of_lt (compare_lt_iff_lt.mp hc)
  · exact compare_lt_iff_lt.mp hc
  · exact le_of_eq (compare_eq_iff_eq.mp hc)
  · exact le_of_eq (compare_eq_iff_eq.mp hc).symm
  · exact compare_gt_iff_gt.mp hc
  · exact le_of_lt (compare_gt_iff_gt.mp hc)

/-- Key-comparator `le` relations are transitive. -/
theorem key_le_trans {α β : Type} [LinearOrder β] (k : α → β) (rev : Bool) :
    ∀ a b c : α, cmp_le (fun x y => get_ordering (k x) (k y) rev) a b →
      cmp_le (fun x y => get_ordering (k x) (k y) rev) b c →
      cmp_le (fun x y => get_ordering (k x) (k y) rev) a c := by
  intro a b c hab hbc
  rw [cmp_le_key_iff] at hab hbc ⊢
  cases rev
  · simp only [if_neg Bool.false_ne_true] at hab hbc ⊢
    exact le_trans hab hbc
  · simp only [if_pos rfl] at hab hbc ⊢
    exact le_trans hbc hab

/-- Key-comparator `le` relations are total. -/
theorem key_le_total {α β : Type} [LinearOrder β] (k : α → β) (rev : Bool) :
    ∀ a b : α, cmp_le (fun x y => get_ordering (k x) (k y) rev) a b ||
      cmp_le (fun x y => get_ordering (k x) (k y) rev) b a := by
  intro a b
  rcases le_total (k a) (k b) with h | h <;> cases rev <;>
    simp [cmp_le_key_iff, h]

/-- Stability of `sort_by` for a key comparator: a pair already in
order that the comparator does not order strictly the other way stays
in order. -/
theorem pair_sublist_sort_by_key {α β : Type} [LinearOrder β] (k : α → β) (rev : Bool)
    {a b : α} {l : List α}
    (hab : get_ordering (k a) (k b) rev ≠ Ordering.gt)
    (h : [a, b].Sublist l) :
    [a, b].Sublist (sort_by (fun x y => get_ordering (k x) (k y) rev) l) := by
  apply List.pair_sublist_mergeSort (key_le_trans k rev) (key_le_total k rev) _ h
  unfold cmp_le
  rcases hc : get_ordering (k a) (k b) rev with _ | _ | _ <;> simp_all

/-- Stability of `sort_by` for a key comparator at equal keys. -/
theorem pair_sublist_sort_by_key_eq {α β : Type} [LinearOrder β] (k : α → β) (rev : Bool)
    {a b : α} {l : List α}
    (hab : get_ordering (k a) (k b) rev = Ordering.eq)
    (h : [a, b].Sublist l) :
    [a, b].Sublist (sort_by (fun x y => get_ordering (k x) (k y) rev) l) :=
  pair_sublist_sort_by_key k rev (by simp [hab]) h

/-- The comparison applied by the second pass of `sort_process_data`
for the widget's configured sort column and direction (the key and
`reverse` flag each arm of src/src/lib.rs lines 564-676 passes to
`get_ordering`). -/
def configured_cmp (st : ProcWidgetState) (a b : ConvertedProcessData) : Ordering :=
  match st.process_sorting_type with
  | ProcessSorting.CpuPercent =>
    get_ordering a.cpu_percent_usage b.cpu_percent_usage st.is_process_sort_descending
  | ProcessSorting.Mem =>
    get_ordering a.mem_usage_bytes b.mem_usage_bytes st.is_process_sort_descending
  | ProcessSorting.MemPercent =>
    get_ordering a.mem_percent_usage b.mem_percent_usage st.is_process_sort_descending
  | ProcessSorting.ProcessName =>
    get_ordering (to_lowercase a.name) (to_lowercase b.name) st.is_process_sort_descending
  | ProcessSorting.Command =>
    get_ordering (to_lowercase a.command) (to_lowercase b.command) st.is_process_sort_descending
  | ProcessSorting.Pid =>
    get_ordering a.pid b.pid st.is_process_sort_descending
  | ProcessSorting.ReadPerSecond =>
    get_ordering a.rps_f64 b.rps_f64 st.is_process_sort_descending
  | ProcessSorting.WritePerSecond =>
    get_ordering a.wps_f64 b.wps_f64 st.is_process_sort_descending
  | ProcessSorting.TotalRead =>
    get_ordering a.tr_f64 b.tr_f64 st.is_process_sort_descending
  | ProcessSorting.TotalWrite =>
    get_ordering a.tw_f64 b.tw_f64 st.is_process_sort_descending
  | ProcessSorting.State =>
    get_ordering (to_lowercase a.process_state) (to_lowercase b.process_state) st.is_process_sort_descending
  | ProcessSorting.Count =>
    get_ordering a.group_pids.length b.group_pids.length st.is_process_sort_descending

/-- Stability of the lib.rs `sort_process_data`: it first applies a
stable case-insensitive ascending sort on process name and then the
configured sort column and direction on top, so a pair of rows whose
configured sort keys compare equal and that stands in name-sorted
order keeps that relative order in the output. -/
theorem sort_process_data_stable (st : ProcWidgetState) (l : List ConvertedProcessData)
    (a b : ConvertedProcessData)
    (heq : configured_cmp st a b = Ordering.eq)
    (hpair : [a, b].Sublist (name_baseline l)) :
    [a, b].Sublist (sort_process_data st l) := by
  rcases hst : st.process_sorting_type <;>
    simp only [configured_cmp, hst] at heq <;>
    simp only [sort_process_data, hst]
  case CpuPercent =>
    exact pair_sublist_sort_by_key_eq (fun p => p.cpu_percent_usage) _ heq hpair
  case Mem =>
    exact pair_sublist_sort_by_key_eq (fun p => p.mem_usage_bytes) _ heq hpair
  case MemPercent =>
    exact pair_sublist_sort_by_key_eq (fun p => p.mem_percent_usage) _ heq hpair
  case ProcessName =>
    cases hd : st.is_process_sort_descending
    · rw [if_neg (by decide)]
      exact hpair
    · rw [hd] at heq
      rw [if_pos (by decide)]
      exact pair_sublist_sort_by_key_eq (fun p => to_lowercase p.name) _ heq hpair
  case Command =>
    exact pair_sublist_sort_by_key_eq (fun p => to_lowercase p.command) _ heq hpair
  case Pid =>
    cases hg : st.is_grouped
    · rw [if_pos (by decide)]
      exact pair_sublist_sort_by_key_eq (fun p => p.pid) _ heq hpair
    · rw [if_neg (by decide)]
      exact hpair
  case ReadPerSecond =>
    exact pair_sublist_sort_by_key_eq (fun p => p.rps_f64) _ heq hpair
  case WritePerSecond =>
    exact pair_sublist_sort_by_key_eq (fun p => p.wps_f64) _ heq hpair
  case TotalRead =>
    exact pair_sublist_sort_by_key_eq (fun p => p.tr_f64) _ heq hpair
  case TotalWrite =>
    exact pair_sublist_sort_by_key_eq (fun p => p.tw_f64) _ heq hpair
  case State =>
    exact pair_sublist_sort_by_key_eq (fun p => to_lowercase p.process_state) _ heq hpair
  case Count =>
    cases hg : st.is_grouped
    · rw [if_neg (by decide)]
      exact hpair
    · rw [if_pos (by decide)]
      exact pair_sublist_sort_by_key_eq (fun p => p.group_pids.length) _ heq hpair

/-- Claim C9: applying a sort column in the wrong mode is a no-op
beyond the name baseline — sorting by `Pid` while the widget is
grouped, or by `Count` while it is not grouped, yields exactly the
case-insensitive name-ascending baseline order. -/
theorem wrong_mode_sort_is_noop :
    (∀ (st : ProcWidgetState) (l : List ConvertedProcessData),
      st.process_sorting_type = ProcessSorting.Pid → st.is_grouped = true →
      sort_process_data st l = name_baseline l) ∧
    (∀ (st : ProcWidgetState) (l : List ConvertedProcessData),
      st.process_sorting_type = ProcessSorting.Count → st.is_grouped = false →
      sort_process_data st l = name_baseline l) := by
  constructor <;> intro st l h1 h2 <;> simp [sort_process_data, h1, h2]

/-- A grouped widget state configured to sort by `Pid`. -/
def pid_grouped_state : ProcWidgetState :=
  { process_sorting_type := ProcessSorting.Pid
    is_process_sort_descending := false
    is_grouped := true
    is_tree_mode := false
    is_using_command := false
    is_invalid_or_blank := true
    process_filter := none
    scroll_state :=
      { current_scroll_position := 0
        previous_scroll_position := 0
        scroll_direction := ScrollDirection.Down } }

/-- An ungrouped widget state configured to sort by `Count`. -/
def count_ungrouped_state : ProcWidgetState :=
  { pid_grouped_state with
    process_sorting_type := ProcessSorting.Count
    is_grouped := false }

theorem wrong_mode_sort_is_noop_witness :
    sort_process_data pid_grouped_state [] = name_baseline [] ∧
    sort_process_data count_ungrouped_state [] = name_baseline [] :=
  ⟨wrong_mode_sort_is_noop.1 pid_grouped_state [] rfl rfl,
   wrong_mode_sort_is_noop.2 count_ungrouped_state [] rfl rfl⟩

/-- A sample row used to run the embedding on concrete inputs. -/
def row_a : ConvertedProcessData :=
  { pid := 1
    name := "a"
    command := "a"
    cpu_percent_usage := 2
    mem_usage_bytes := 0
    mem_percent_usage := 0
    rps_f64 := 0
    wps_f64 := 0
    tr_f64 := 0
    tw_f64 := 0
    process_state := "Running"
    group_pids := [1]
    is_disabled_entry := false }

/-- A second sample row: a later name, the same cpu usage. -/
def row_b : ConvertedProcessData :=
  { row_a with pid := 2, name := "b", command := "b", group_pids := [2] }

/-- An ungrouped, non-tree widget state sorting by cpu descending. -/
def cpu_descending_state : ProcWidgetState :=
  { pid_grouped_state with
    process_sorting_type := ProcessSorting.CpuPercent
    is_process_sort_descending := true
    is_grouped := false }

/-- Stability of the `main.rs` `sort_process_data`: the same two-pass
stable structure over its case-sensitive raw-name baseline — a pair of
rows whose configured sort keys compare equal and that stands in
raw-name-sorted order keeps that relative order in the output. -/
theorem main_sort_process_data_stable (app : MainSortConfig)
    (l : List MainConvertedProcessData) (a b : MainConvertedProcessData)
    (heq : main_configured_cmp app a b = Ordering.eq)
    (hpair : [a, b].Sublist (main_name_baseline l)) :
    [a, b].Sublist (main_sort_process_data app l) := by
  rcases hst : app.process_sorting_type <;>
    simp only [main_configured_cmp, hst] at heq <;>
    simp only [main_sort_process_data, hst]
  case CPU =>
    exact pair_sublist_sort_by_key_eq (fun p => p.cpu_usage) _ heq hpair
  case MEM =>
    exact pair_sublist_sort_by_key_eq (fun p => p.mem_usage) _ heq hpair
  case NAME =>
    exact pair_sublist_sort_by_key_eq (fun p => p.name) _ heq hpair
  case PID =>
    cases hg : app.is_grouped
    · rw [if_pos (by decide)]
      exact pair_sublist_sort_by_key_eq (fun p => p.pid) _ heq hpair
    · rw [if_neg (by decide)]
      exact hpair

/-- Claim C4 (amended): the lib.rs `sort_process_data` first applies a
stable case-insensitive ascending name baseline and then the
configured column and direction on top, so rows with equal configured
sort keys retain their relative name-sorted order; the `main.rs`
`sort_process_data` has the same two-pass stable structure and the
same stability property, but its name baseline compares raw names
case-sensitively rather than case-insensitively. -/
theorem sort_process_data_stable_both :
    (∀ (st : ProcWidgetState) (l : List ConvertedProcessData)
       (a b : ConvertedProcessData),
      configured_cmp st a b = Ordering.eq → [a, b].Sublist (name_baseline l) →
      [a, b].Sublist (sort_process_data st l)) ∧
    (∀ (app : MainSortConfig) (l : List MainConvertedProcessData)
       (a b : MainConvertedProcessData),
      main_configured_cmp app a b = Ordering.eq →
      [a, b].Sublist (main_name_baseline l) →
      [a, b].Sublist (main_sort_process_data app l)) :=
  ⟨fun st l a b heq hpair => sort_process_data_stable st l a b heq hpair,
   fun app l a b heq hpair => main_sort_process_data_stable app l a b heq hpair⟩

/-- A `main.rs` row with a lowercase name. -/
def main_row_lower_a : MainConvertedProcessData :=
  { pid := 1
    name := "a"
    cpu_usage := 2
    mem_usage := 0
    group_pids := [1] }

/-- A `main.rs` row whose name is an uppercase letter that sorts after
`"a"` case-insensitively but before it byte-wise. -/
def main_row_upper_b : MainConvertedProcessData :=
  { main_row_lower_a with pid := 2, name := "B", group_pids := [2] }

/-- A `main.rs` row named `"b"`, after `"a"` in both orders. -/
def main_row_plain_b : MainConvertedProcessData :=
  { main_row_lower_a with pid := 3, name := "b", group_pids := [3] }

/-- The `main.rs` sort configuration: by cpu, ascending, ungrouped. -/
def main_cpu_config : MainSortConfig :=
  { process_sorting_type := MainProcessSorting.CPU
    process_sorting_reverse := false
    is_grouped := false }

/-- Claim C4 counterexample: in the `main.rs` `sort_process_data`, two
rows with equal configured sort keys (equal cpu) whose names `"a"` and
`"B"` compare `"a"` strictly first case-insensitively come out in the
opposite order `["B", "a"]`, because the `main.rs` baseline at
src/src/main.rs line 396 compares raw names case-sensitively; so the
claimed case-insensitive name-ascending baseline is false of that
cited implementation. -/
theorem main_sort_case_sensitive_counterexample :
    get_ordering (to_lowercase main_row_lower_a.name)
      (to_lowercase main_row_upper_b.name) false = Ordering.lt ∧
    main_configured_cmp main_cpu_config main_row_lower_a main_row_upper_b
      = Ordering.eq ∧
    main_sort_process_data main_cpu_config [main_row_lower_a, main_row_upper_b]
      = [main_row_upper_b, main_row_lower_a] ∧
    ¬ [main_row_lower_a, main_row_upper_b].Sublist
        (main_sort_process_data main_cpu_config
          [main_row_lower_a, main_row_upper_b]) := by
  have hbase : List.mergeSort [main_row_lower_a, main_row_upper_b]
      (cmp_le (fun a b => get_ordering a.name b.name false))
      = [main_row_upper_b, main_row_lower_a] := by
    rw [mergeSort_pair]
    decide
  have hsecond : List.mergeSort [main_row_upper_b, main_row_lower_a]
      (cmp_le (fun a b => get_ordering a.cpu_usage b.cpu_usage false))
      = [main_row_upper_b, main_row_lower_a] := by
    rw [mergeSort_pair]
    decide
  have h3 : main_sort_process_data main_cpu_config
      [main_row_lower_a, main_row_upper_b]
      = [main_row_upper_b, main_row_lower_a] := by
    simp only [main_sort_process_data, main_cpu_config, main_name_baseline, sort_by]
    rw [hbase, hsecond]
  refine ⟨by decide, by decide, h3, ?_⟩
  rw [h3]
  decide

theorem sort_process_data_stable_both_witness :
    (configured_cmp cpu_descending_state row_a row_b = Ordering.eq ∧
     [row_a, row_b].Sublist (name_baseline [row_a, row_b]) ∧
     [row_a, row_b].Sublist (sort_process_data cpu_descending_state [row_a, row_b])) ∧
    (main_configured_cmp main_cpu_config main_row_lower_a main_row_plain_b
       = Ordering.eq ∧
     [main_row_lower_a, main_row_plain_b].Sublist
       (main_name_baseline [main_row_lower_a, main_row_plain_b]) ∧
     [main_row_lower_a, main_row_plain_b].Sublist
       (main_sort_process_data main_cpu_config
         [main_row_lower_a, main_row_plain_b])) := by
  have h1 : configured_cmp cpu_descending_state row_a row_b = Ordering.eq := by decide
  have h2 : [row_a, row_b].Sublist (name_baseline [row_a, row_b]) := by
    unfold name_baseline sort_by
    rw [mergeSort_pair]
    decide
  have h3 : main_configured_cmp main_cpu_config main_row_lower_a main_row_plain_b
      = Ordering.eq := by decide
  have h4 : [main_row_lower_a, main_row_plain_b].Sublist
      (main_name_baseline [main_row_lower_a, main_row_plain_b]) := by
    unfold main_name_baseline sort_by
    rw [mergeSort_pair]
    decide
  exact ⟨⟨h1, h2, sort_process_data_stable_both.1 cpu_descending_state
      [row_a, row_b] row_a row_b h1 h2⟩,
    ⟨h3, h4, sort_process_data_stable_both.2 main_cpu_config
      [main_row_lower_a, main_row_plain_b] main_row_lower_a main_row_plain_b h3 h4⟩⟩

/-- Claim C7: in non-tree mode, a blank or invalid search query makes
the filter step pass every record through unchanged. -/
theorem blank_query_filter_identity
    (process_filter : Option (ConvertedProcessData → Bool → Bool))
    (is_using_command : Bool) (records : List ConvertedProcessData) :
    filter_step_non_tree true process_filter is_using_command records = records := by
  unfold filter_step_non_tree
  simp

/-- Claim C8: with a valid query and an installed filter, the
tree-mode filter step keeps exactly the input rows in order, setting
`is_disabled_entry` on a row precisely when the filter rejects it,
while the non-tree filter step removes exactly the rejected rows. -/
theorem filter_mode_behavior
    (f : ConvertedProcessData → Bool → Bool) (is_using_command : Bool)
    (records : List ConvertedProcessData) :
    filter_step_tree false (some f) is_using_command records =
      records.map (fun process =>
        { process with is_disabled_entry := !(f process is_using_command) }) ∧
    (filter_step_tree false (some f) is_using_command records).length = records.length ∧
    filter_step_non_tree false (some f) is_using_command records =
      records.filter (fun process => f process is_using_command) ∧
    ∀ process, process ∈ filter_step_non_tree false (some f) is_using_command records ↔
      process ∈ records ∧ f process is_using_command = true :=
  ⟨rfl, by simp [filter_step_tree], rfl, fun process => by simp [filter_step_non_tree]⟩

/-- Looking a key up right after inserting it finds the new value. -/
theorem assoc_lookup_insert_self {β : Type} (m : List (Nat × β)) (k : Nat) (v : β) :
    assoc_lookup (assoc_insert m k v) k = some v := by
  induction m with
  | nil => simp [assoc_insert, assoc_lookup]
  | cons p rest ih =>
    obtain ⟨k', v'⟩ := p
    by_cases h : k' = k <;> simp [assoc_insert, assoc_lookup, h, ih]

/-- Inserting at one key leaves lookups at a different key unchanged. -/
theorem assoc_lookup_insert_ne {β : Type} (m : List (Nat × β)) (k' k : Nat) (v : β)
    (h : k' ≠ k) : assoc_lookup (assoc_insert m k' v) k = assoc_lookup m k := by
  induction m with
  | nil => simp [assoc_insert, assoc_lookup, h]
  | cons p rest ih =>
    obtain ⟨k₀, v₀⟩ := p
    by_cases h0 : k₀ = k' <;> simp [assoc_insert, assoc_lookup, h0, h, ih]

/-- What the clamp step guarantees, as a function of the new list
length: a position strictly below the length when non-empty, zero when
empty, and last-row-plus-direction-reset when the list shrank to or
below the current position. -/
theorem clamp_scroll_spec (s : AppScrollWidgetState) (len : Nat) :
    (0 < len → (clamp_scroll s len).current_scroll_position < len) ∧
    (len = 0 → (clamp_scroll s len).current_scroll_position = 0) ∧
    (len ≤ s.current_scroll_position → 0 < len →
      (clamp_scroll s len).current_scroll_position = len - 1 ∧
      (clamp_scroll s len).scroll_direction = ScrollDirection.Down) := by
  unfold clamp_scroll
  split
  · refine ⟨fun h => ?_, fun h => ?_, fun h1 h2 => ⟨rfl, rfl⟩⟩
    · show len - 1 < len
      omega
    · show len - 1 = 0
      omega
  · rename_i h
    exact ⟨fun h1 => by omega, fun h0 => by omega, fun h1 h2 => absurd h1 h⟩

/-- The clamp guarantee of the lib.rs `update_final_process_list`:
after a recompute, the widget's stored scroll position is strictly
below the stored list's length when that list is non-empty and zero
when it is empty; and when the list shrank to or below the previous
position (while staying non-empty), the position is the last row and
the scroll direction is reset to `Down`. -/
theorem update_final_process_list_clamp
    (convert : DataCollection → List ConvertedProcessData)
    (tree_fn : List ConvertedProcessData → Bool → ProcessSorting → Bool → List ConvertedProcessData)
    (group_fn : List ConvertedProcessData → Bool → List ConvertedProcessData)
    (app : LibApp) (widget_id : Nat) (st : ProcWidgetState)
    (hst : assoc_lookup app.proc_state.widget_states widget_id = some st) :
    ∃ fin st',
      assoc_lookup
        (update_final_process_list convert tree_fn group_fn app widget_id).canvas_data.finalized_process_data_map
        widget_id = some fin ∧
      assoc_lookup
        (update_final_process_list convert tree_fn group_fn app widget_id).proc_state.widget_states
        widget_id = some st' ∧
      (0 < fin.length → st'.scroll_state.current_scroll_position < fin.length) ∧
      (fin.length = 0 → st'.scroll_state.current_scroll_position = 0) ∧
      (fin.length ≤ st.scroll_state.current_scroll_position → 0 < fin.length →
        st'.scroll_state.current_scroll_position = fin.length - 1 ∧
        st'.scroll_state.scroll_direction = ScrollDirection.Down) := by
  unfold update_final_process_list
  rw [hst]
  exact ⟨_, _, assoc_lookup_insert_self _ _ _, assoc_lookup_insert_self _ _ _,
    (clamp_scroll_spec _ _).1, (clamp_scroll_spec _ _).2.1, (clamp_scroll_spec _ _).2.2⟩

/-- A widget state whose scroll position (5) can exceed a recomputed
list's length, exercising the clamp. -/
def scrolled_widget_state : ProcWidgetState :=
  { pid_grouped_state with
    is_grouped := false
    scroll_state :=
      { current_scroll_position := 5
        previous_scroll_position := 3
        scroll_direction := ScrollDirection.Up } }

/-- A one-widget application state for concrete runs. -/
def demo_lib_app : LibApp :=
  { is_frozen := false
    data_collection := { samples := [] }
    proc_state :=
      { force_update_all := false
        force_update := none
        widget_states := [(1, scrolled_widget_state)] }
    canvas_data :=
      { single_process_data := [row_a, row_b]
        finalized_process_data_map := [] } }

/-- Claim C5 (amended): after every recompute by the lib.rs
`update_final_process_list`, the widget's stored scroll position is
strictly below the stored list's length when non-empty and zero when
empty, with last-row reset and direction `Down` when the list shrank
to or below the previous position; the `main.rs`
`update_final_process_list`, by contrast, performs no clamp at all —
it leaves the scroll position unchanged on every recompute. -/
theorem recompute_scroll_clamp_behavior :
    (∀ (convert : DataCollection → List ConvertedProcessData)
       (tree_fn : List ConvertedProcessData → Bool → ProcessSorting → Bool → List ConvertedProcessData)
       (group_fn : List ConvertedProcessData → Bool → List ConvertedProcessData)
       (app : LibApp) (widget_id : Nat) (st : ProcWidgetState),
      assoc_lookup app.proc_state.widget_states widget_id = some st →
      ∃ fin st',
        assoc_lookup
          (update_final_process_list convert tree_fn group_fn app widget_id).canvas_data.finalized_process_data_map
          widget_id = some fin ∧
        assoc_lookup
          (update_final_process_list convert tree_fn group_fn app widget_id).proc_state.widget_states
          widget_id = some st' ∧
        (0 < fin.length → st'.scroll_state.current_scroll_position < fin.length) ∧
        (fin.length = 0 → st'.scroll_state.current_scroll_position = 0) ∧
        (fin.length ≤ st.scroll_state.current_scroll_position → 0 < fin.length →
          st'.scroll_state.current_scroll_position = fin.length - 1 ∧
          st'.scroll_state.scroll_direction = ScrollDirection.Down)) ∧
    (∀ app : MainUpdateApp,
      (main_update_final_process_list app).scroll_position = app.scroll_position) :=
  ⟨fun convert tree_fn group_fn app widget_id st hst =>
    update_final_process_list_clamp convert tree_fn group_fn app widget_id st hst,
   fun _ => rfl⟩

/-- A `main.rs` application state whose scroll position (5) is stale:
the upcoming recompute produces an empty list. -/
def stale_scroll_app : MainUpdateApp :=
  { is_grouped := true
    is_searching_with_pid := false
    regex_matcher := none
    process_sorting_type := MainProcessSorting.CPU
    process_sorting_reverse := false
    scroll_position := 5
    grouped_process_data := []
    process_data := []
    finalized_process_data := [main_row_lower_a, main_row_upper_b] }

/-- Claim C5 counterexample: the `main.rs` `update_final_process_list`
(src/src/main.rs lines 352-393) contains no clamp — after a recompute
that leaves the finalized list empty, the scroll position is still 5,
violating the claimed post-recompute invariant (position 0 on an empty
list) for that cited recompute. -/
theorem main_recompute_no_clamp_counterexample :
    (main_update_final_process_list stale_scroll_app).finalized_process_data.length = 0 ∧
    (main_update_final_process_list stale_scroll_app).scroll_position = 5 ∧
    ¬((main_update_final_process_list stale_scroll_app).scroll_position = 0) := by
  have hfin : (main_update_final_process_list stale_scroll_app).finalized_process_data
      = [] := by
    simp [main_update_final_process_list, stale_scroll_app, to_sort_config,
      main_sort_process_data, main_name_baseline, sort_by]
  have hscroll : (main_update_final_process_list stale_scroll_app).scroll_position
      = 5 := rfl
  refine ⟨by rw [hfin]; rfl, hscroll, ?_⟩
  rw [hscroll]
  decide

theorem recompute_scroll_clamp_behavior_witness :
    (assoc_lookup demo_lib_app.proc_state.widget_states 1
      = some scrolled_widget_state) ∧
    (∃ fin st',
      assoc_lookup
        (update_final_process_list (fun _ => []) (fun l _ _ _ => l) (fun l _ => l)
          demo_lib_app 1).canvas_data.finalized_process_data_map 1 = some fin ∧
      assoc_lookup
        (update_final_process_list (fun _ => []) (fun l _ _ _ => l) (fun l _ => l)
          demo_lib_app 1).proc_state.widget_states 1 = some st' ∧
      (0 < fin.length → st'.scroll_state.current_scroll_position < fin.length) ∧
      (fin.length = 0 → st'.scroll_state.current_scroll_position = 0) ∧
      (fin.length ≤ scrolled_widget_state.scroll_state.current_scroll_position →
        0 < fin.length →
        st'.scroll_state.current_scroll_position = fin.length - 1 ∧
        st'.scroll_state.scroll_direction = ScrollDirection.Down)) ∧
    (main_update_final_process_list stale_scroll_app).scroll_position
      = stale_scroll_app.scroll_position :=
  ⟨rfl,
    recompute_scroll_clamp_behavior.1 (fun _ => []) (fun l _ _ _ => l) (fun l _ => l)
      demo_lib_app 1 scrolled_widget_state rfl,
    recompute_scroll_clamp_behavior.2 stale_scroll_app⟩

/-- `update_final_process_list` never touches the two force-update
flags of the process state. -/
theorem update_final_preserves_force_flags
    (convert : DataCollection → List ConvertedProcessData)
    (tree_fn : List ConvertedProcessData → Bool → ProcessSorting → Bool → List ConvertedProcessData)
    (group_fn : List ConvertedProcessData → Bool → List ConvertedProcessData)
    (a : LibApp) (w : Nat) :
    (update_final_process_list convert tree_fn group_fn a w).proc_state.force_update_all
      = a.proc_state.force_update_all ∧
    (update_final_process_list convert tree_fn group_fn a w).proc_state.force_update
      = a.proc_state.force_update := by
  unfold update_final_process_list
  cases h : assoc_lookup a.proc_state.widget_states w
  · exact ⟨rfl, rfl⟩
  · cases hf : a.is_frozen
    · exact ⟨rfl, rfl⟩
    · exact ⟨rfl, rfl⟩

/-- Folding widget recomputes over any id list never touches the
pending single-widget force-update request. -/
theorem foldl_update_preserves_force_update
    (convert : DataCollection → List ConvertedProcessData)
    (tree_fn : List ConvertedProcessData → Bool → ProcessSorting → Bool → List ConvertedProcessData)
    (group_fn : List ConvertedProcessData → Bool → List ConvertedProcessData)
    (ids : List Nat) (a : LibApp) :
    (ids.foldl (fun acc w => update_final_process_list convert tree_fn group_fn acc w)
      a).proc_state.force_update = a.proc_state.force_update := by
  induction ids generalizing a with
  | nil => rfl
  | cons w rest ih =>
    rw [List.foldl_cons, ih,
      (update_final_preserves_force_flags convert tree_fn group_fn a w).2]

/-- `update_all_process_lists` never touches the pending single-widget
force-update request. -/
theorem update_all_preserves_force_update
    (convert : DataCollection → List ConvertedProcessData)
    (tree_fn : List ConvertedProcessData → Bool → ProcessSorting → Bool → List ConvertedProcessData)
    (group_fn : List ConvertedProcessData → Bool → List ConvertedProcessData)
    (a : LibApp) :
    (update_all_process_lists convert tree_fn group_fn a).proc_state.force_update
      = a.proc_state.force_update := by
  unfold update_all_process_lists
  cases hf : a.is_frozen
  · exact foldl_update_preserves_force_update convert tree_fn group_fn _ a
  · rfl

/-- An unfrozen application with both force-update flags pending. -/
def demo_both_flags_app : LibApp :=
  { demo_lib_app with
    proc_state :=
      { force_update_all := true
        force_update := some 1
        widget_states := [(1, scrolled_widget_state)] } }

/-- Claim C10 (amended): when an all-widgets force update is pending,
`handle_force_redraws` takes the all-widgets branch — its result is
exactly `update_all_process_lists` (which recomputes every widget when
not frozen and does nothing when frozen) with `force_update_all`
cleared — and a simultaneously pending single-widget `force_update`
request is left set, not consumed. -/
theorem force_update_all_precedence
    (convert : DataCollection → List ConvertedProcessData)
    (tree_fn : List ConvertedProcessData → Bool → ProcessSorting → Bool → List ConvertedProcessData)
    (group_fn : List ConvertedProcessData → Bool → List ConvertedProcessData)
    (app : LibApp) (hall : app.proc_state.force_update_all = true) :
    handle_force_redraws convert tree_fn group_fn app =
      { update_all_process_lists convert tree_fn group_fn app with
        proc_state.force_update_all := false } ∧
    (handle_force_redraws convert tree_fn group_fn app).proc_state.force_update
      = app.proc_state.force_update := by
  have h1 : handle_force_redraws convert tree_fn group_fn app =
      { update_all_process_lists convert tree_fn group_fn app with
        proc_state.force_update_all := false } := by
    unfold handle_force_redraws
    rw [hall]
    rfl
  refine ⟨h1, ?_⟩
  rw [h1]
  show (update_all_process_lists convert tree_fn group_fn app).proc_state.force_update = _
  exact update_all_preserves_force_update convert tree_fn group_fn app

theorem force_update_all_precedence_witness :
    handle_force_redraws (fun _ => []) (fun l _ _ _ => l) (fun l _ => l) demo_both_flags_app =
      { update_all_process_lists (fun _ => []) (fun l _ _ _ => l) (fun l _ => l)
          demo_both_flags_app with proc_state.force_update_all := false } ∧
    (handle_force_redraws (fun _ => []) (fun l _ _ _ => l) (fun l _ => l)
      demo_both_flags_app).proc_state.force_update
      = demo_both_flags_app.proc_state.force_update :=
  force_update_all_precedence (fun _ => []) (fun l _ _ _ => l) (fun l _ => l)
    demo_both_flags_app rfl

/-- A frozen application with both an all-widgets and a single-widget
force update pending, and an existing widget with no cached list. -/
def both_flags_frozen_app : LibApp :=
  { is_frozen := true
    data_collection := { samples := [] }
    proc_state :=
      { force_update_all := true
        force_update := some 1
        widget_states := [(1, pid_grouped_state)] }
    canvas_data :=
      { single_process_data := [row_a]
        finalized_process_data_map := [] } }

/-- Claim C10 counterexample: with both force-update flags set on a
frozen app that has a widget, `handle_force_redraws` recomputes no
widget at all — the finalized-list cache stays empty — contradicting
the claim that every widget is recomputed in this situation. -/
theorem force_redraw_frozen_counterexample :
    both_flags_frozen_app.proc_state.force_update_all = true ∧
    both_flags_frozen_app.proc_state.force_update = some 1 ∧
    both_flags_frozen_app.proc_state.widget_states ≠ [] ∧
    (handle_force_redraws (fun _ => []) (fun l _ _ _ => l) (fun l _ => l)
      both_flags_frozen_app).canvas_data.finalized_process_data_map = [] :=
  ⟨rfl, rfl, List.cons_ne_nil _ _, rfl⟩

/-- Claim C1: while frozen, handling an Update event leaves the
`main.rs` application state — history and cached row lists included —
completely unchanged, and the `lib.rs` all-widgets recompute is
likewise a no-op. -/
theorem freeze_discards_update
    (process_snapshot : MainApp → Data → MainApp) (app : MainApp) (data : Data)
    (hfrozen : app.is_frozen = true)
    (convert : DataCollection → List ConvertedProcessData)
    (tree_fn : List ConvertedProcessData → Bool → ProcessSorting → Bool → List ConvertedProcessData)
    (group_fn : List ConvertedProcessData → Bool → List ConvertedProcessData)
    (app2 : LibApp) (hfrozen2 : app2.is_frozen = true) :
    main_handle_update process_snapshot app data = app ∧
    update_all_process_lists convert tree_fn group_fn app2 = app2 := by
  constructor
  · unfold main_handle_update
    rw [hfrozen]
    rfl
  · unfold update_all_process_lists
    rw [hfrozen2]
    rfl

/-- A frozen `main.rs`-side application state. -/
def frozen_main_app : MainApp :=
  { is_frozen := true
    data_collection := { samples := [] }
    finalized_process_data := [row_a] }

/-- A frozen `lib.rs`-side application state. -/
def frozen_lib_app : LibApp :=
  { demo_lib_app with is_frozen := true }

theorem freeze_discards_update_witness :
    main_handle_update (fun a _ => a) frozen_main_app { collection_time := 0 }
      = frozen_main_app ∧
    update_all_process_lists (fun _ => []) (fun l _ _ _ => l) (fun l _ => l)
      frozen_lib_app = frozen_lib_app :=
  freeze_discards_update (fun a _ => a) frozen_main_app { collection_time := 0 } rfl
    (fun _ => []) (fun l _ _ _ => l) (fun l _ => l) frozen_lib_app rfl

/-- An app with click handling disabled by configuration. -/
def clicks_disabled_app : MouseApp :=
  { disable_click := true
    scroll_position := 0
    selected_widget := 0 }

/-- Claim C2 counterexample: with `disable_click` set, a scroll-down
mouse event still mutates the app (the focused widget scrolls), so
`handle_mouse_event` does not leave the state unchanged for every
mouse event kind. -/
theorem mouse_disable_click_counterexample :
    handle_mouse_event (fun _ _ => 0)
      (MouseEvent.ScrollDown 0 0 { shift := false, control := false, alt := false })
      clicks_disabled_app ≠ clicks_disabled_app := by
  decide

/-- Claim C2 (amended): when click handling is disabled by
configuration, button-down mouse events leave the app state completely
unchanged; scroll-wheel events are still dispatched to the scroll
handlers. -/
theorem disable_click_suppresses_clicks
    (hit_test : Nat → Nat → Nat) (button : MouseButton) (x y : Nat) (m : KeyModifiers)
    (app : MouseApp) (h : app.disable_click = true) :
    handle_mouse_event hit_test (MouseEvent.Down button x y m) app = app := by
  unfold handle_mouse_event
  rw [h]
  rfl

theorem disable_click_suppresses_clicks_witness :
    clicks_disabled_app.disable_click = true ∧
    handle_mouse_event (fun _ _ => 0)
      (MouseEvent.Down MouseButton.Left 3 4 { shift := false, control := false, alt := false })
      clicks_disabled_app = clicks_disabled_app :=
  ⟨rfl, disable_click_suppresses_clicks (fun _ _ => 0) MouseButton.Left 3 4
    { shift := false, control := false, alt := false } clicks_disabled_app rfl⟩

/-- Claim C3 counterexample: at the concrete input "send failed because
the consumer was dropped", the `main.rs` cleanup-tick thread and the
`main.rs` harvest thread panic (they `unwrap` the send result) instead
of exiting normally. -/
theorem send_failure_panics_counterexample :
    main_cleaning_thread_send_step SendOutcome.closed = LoopExit.panicked ∧
    main_cleaning_thread_send_step SendOutcome.closed ≠ LoopExit.exit_normally ∧
    main_harvest_thread_send_step SendOutcome.closed = LoopExit.panicked := by
  decide

/-- Claim C3 (amended): when a send on the event channel fails because
the consumer was dropped, both input threads and the `lib.rs` harvest
thread exit their loops normally without surfacing an error, while the
`main.rs` cleanup-tick and harvest threads panic via `unwrap`. -/
theorem send_failure_shutdown_behavior :
    create_event_thread_send_step SendOutcome.closed = LoopExit.exit_normally ∧
    create_input_thread_send_step SendOutcome.closed = LoopExit.exit_normally ∧
    main_input_thread_send_step SendOutcome.closed = LoopExit.exit_normally ∧
    main_cleaning_thread_send_step SendOutcome.closed = LoopExit.panicked ∧
    main_harvest_thread_send_step SendOutcome.closed = LoopExit.panicked := by
  decide

/-- Claim C6: `handle_key_event_or_break` signals program exit exactly
for an unmodified `q` pressed while no search box has focus, and for
CONTROL+`c`; every other key event — including `q` while a search box
has focus — returns false. -/
theorem handle_key_event_break_iff (event : KeyEvent) (is_in_search_widget : Bool) :
    (handle_key_event_or_break event is_in_search_widget).1 = true ↔
      ((event.modifiers = { shift := false, control := false, alt := false } ∧
        event.code = KeyCode.Char 'q' ∧ is_in_search_widget = false) ∨
       (event.modifiers = { shift := false, control := true, alt := false } ∧
        event.code = KeyCode.Char 'c')) := by
  obtain ⟨code, mods⟩ := event
  simp only [handle_key_event_or_break]
  by_cases h0 : mods = { shift := false, control := false, alt := false }
  · rw [if_pos h0]
    by_cases hq : code = KeyCode.Char 'q' ∧ ¬is_in_search_widget
    · rw [if_pos hq]
      have hs : is_in_search_widget = false := by
        cases is_in_search_widget
        · rfl
        · exact absurd rfl hq.2
      simp [h0, hq.1, hs]
    · rw [if_neg hq]
      apply iff_of_false (by simp)
      rintro (⟨-, hc, hs⟩ | ⟨hm, -⟩)
      · exact hq ⟨hc, by simp [hs]⟩
      · exact absurd (h0.symm.trans hm) (by decide)
  · rw [if_neg h0]
    by_cases hA : mods = { shift := false, control := false, alt := true }
    · rw [if_pos hA]
      apply iff_of_false (by simp)
      rintro (⟨hm, -⟩ | ⟨hm, -⟩)
      · exact absurd (hA.symm.trans hm) (by decide)
      · exact absurd (hA.symm.trans hm) (by decide)
    · rw [if_neg hA]
      by_cases hC : mods = { shift := false, control := true, alt := false }
      · rw [if_pos hC]
        by_cases hc : code = KeyCode.Char 'c'
        · rw [if_pos hc]
          simp [hC, hc]
        · rw [if_neg hc]
          apply iff_of_false (by simp)
          rintro (⟨hm, -⟩ | ⟨-, hcode⟩)
          · exact absurd (hC.symm.trans hm) (by decide)
          · exact hc hcode
      · rw [if_neg hC]
        by_cases hS : mods = { shift := true, control := false, alt := false }
        · rw [if_pos hS]
          apply iff_of_false (by simp)
          rintro (⟨hm, -⟩ | ⟨hm, -⟩)
          · exact absurd (hS.symm.trans hm) (by decide)
          · exact absurd (hS.symm.trans hm) (by decide)
        · rw [if_neg hS]
          apply iff_of_false (by simp)
          rintro (⟨hm, -⟩ | ⟨hm, -⟩)
          · exact h0 hm
          · exact hC hm

end Bottom
